import Mathlib

/-!
Shallow embedding of the Compliance Analysis Engine
(`src/core/checklist.py`, `src/core/analyzer.py`, `src/core/retrieval.py`,
`src/core/report.py`) and proofs of the frozen claims about it.

Conventions of the embedding:
* Python strings are Lean `String`s; the Python substring operator `in`
  is modelled by `pyIn` (needle occurs as a contiguous substring).
* Calls into the external `re` library are modelled by an abstract
  matcher parameter `search : String → String → Bool`
  (`re.search(pattern, text, ...)`) or counter
  `count : String → String → Nat` (`len(re.findall(pattern, text, ...))`);
  the control flow around those calls is translated from the source.
  `searchLit` is the concrete instance for literal (metacharacter-free)
  patterns: case-insensitive substring occurrence.
* Python floats are modelled as exact rationals `ℚ`.
* Fallible external collaborators (OpenAI embeddings, the Chroma vector
  store) are modelled as functions into `Except String _`; a `try/except`
  block in the source becomes a `match` on that result.
-/

/-- Python `needle in haystack` on strings: substring occurrence.  The
empty needle occurs in every haystack, as in Python. -/
def pyIn (needle haystack : String) : Bool :=
  haystack.toList.tails.any (fun t => needle.toList.isPrefixOf t)

/-- Python `str.lower()`, modelled character-wise (kernel-reducible,
unlike `String.toLower`). -/
def pyLower (s : String) : String :=
  String.mk (s.toList.map Char.toLower)

/-- Python `str.strip()` with no argument: drop surrounding whitespace. -/
def pyTrim (s : String) : String :=
  String.mk (((s.toList.dropWhile Char.isWhitespace).reverse.dropWhile
    Char.isWhitespace).reverse)

/-- Worker for `pySplitWs`: split at whitespace, dropping empty pieces;
`acc` holds the current word reversed. -/
def splitWsAux : List Char → List Char → List String
  | [], acc => if acc.isEmpty then [] else [String.mk acc.reverse]
  | c :: rest, acc =>
    if c.isWhitespace then
      (if acc.isEmpty then [] else [String.mk acc.reverse]) ++
        splitWsAux rest []
    else splitWsAux rest (c :: acc)

/-- Python `str.split()` with no argument: split on whitespace runs,
dropping empty pieces. -/
def pySplitWs (s : String) : List String :=
  splitWsAux s.toList []

/-- Worker for `pySplitOn` with a non-empty separator `p :: ps`; `acc`
holds the current piece reversed. -/
def splitOnAux (p : Char) (ps : List Char) :
    List Char → List Char → List String
  | [], acc => [String.mk acc.reverse]
  | c :: rest, acc =>
    if (p :: ps).isPrefixOf (c :: rest) then
      String.mk acc.reverse :: splitOnAux p ps (rest.drop ps.length) []
    else splitOnAux p ps rest (c :: acc)
termination_by l _ => l.length
decreasing_by
  · simp only [List.length_drop, List.length_cons]
    omega
  · simp

/-- Python `str.split(sep)` for a non-empty separator: split on every
occurrence, keeping empty pieces. -/
def pySplitOn (sep s : String) : List String :=
  match sep.toList with
  | [] => [s]
  | p :: ps => splitOnAux p ps s.toList []

/-- Python `str.strip(chars)`: drop leading and trailing characters that
belong to `cs`. -/
def pyStripChars (s : String) (cs : List Char) : String :=
  String.mk (((s.toList.dropWhile (fun c => cs.contains c)).reverse.dropWhile
    (fun c => cs.contains c)).reverse)

/-- A single quote character, kept out of string literals. -/
def squote : Char := Char.ofNat 39

/-- A double quote character, kept out of string literals. -/
def dquote : Char := Char.ofNat 34

/-- Model of `re.search` for a literal pattern with `re.IGNORECASE`:
case-insensitive substring occurrence. -/
def searchLit (pat text : String) : Bool :=
  pyIn (pyLower pat) (pyLower text)

/-- Model of `len(re.findall(pat, text))` for a non-empty literal pattern
`p :: ps`: the number of non-overlapping occurrences in the text,
counted by walking the text one character at a time and skipping the
rest of the pattern after each hit. -/
def countLitAux (p : Char) (ps : List Char) : List Char → Nat
  | [] => 0
  | c :: rest =>
    if (p :: ps).isPrefixOf (c :: rest) then
      1 + countLitAux p ps (rest.drop ps.length)
    else
      countLitAux p ps rest
termination_by l => l.length
decreasing_by
  · simp only [List.length_drop, List.length_cons]
    omega
  · simp

/-- Literal-pattern match counting over strings (case-insensitive, as
under `re.IGNORECASE`); an empty pattern matches at every position plus
once at the end, as `re.findall` does. -/
def countLit (pat text : String) : Nat :=
  match (pyLower pat).toList with
  | [] => (pyLower text).toList.length + 1
  | p :: ps => countLitAux p ps (pyLower text).toList

/-! ## Data model (`§3` of the spec, dict shapes from the source)

Optional dict keys whose absence matters to a claim (`mandatory`,
`applies_if`, `severity`, `message`) are `Option`s; the `.get` default
from the source is applied at each use site. -/

/-- A parsed `.docx` document as produced by `DocumentAnalyzer.parse_docx`
(only the fields the engine reads). -/
structure ParsedDocument where
  filename : String
  full_text : String
deriving DecidableEq

/-- One entry of a checklist's `requirements` list. -/
structure Requirement where
  name : String := ""
  mandatory : Option Bool := none
  applies_if : Option String := none
  sources : List String := []
deriving DecidableEq

/-- A checklist definition loaded from YAML. -/
structure Checklist where
  process : String := ""
  entity_type : String := ""
  requirements : List Requirement := []
deriving DecidableEq

/-- The value returned by `_check_requirement_presence` when the
requirement is found. -/
structure FoundInfo where
  found_in : List String
  confidence : ℚ
deriving DecidableEq

/-- An entry of `results["found_requirements"]`. -/
structure FoundReq where
  name : String
  mandatory : Bool
  found_in : List String
  confidence : ℚ
deriving DecidableEq

/-- An entry of `results["missing_requirements"]`. -/
structure MissingReq where
  name : String
  mandatory : Bool
  sources : List String
deriving DecidableEq

/-- The result dict of `ChecklistProcessor.check_requirements`. -/
structure ReqResults where
  total_requirements : Nat
  found_requirements : List FoundReq
  missing_requirements : List MissingReq
  compliance_score : ℚ
deriving DecidableEq

/-! ## `ChecklistProcessor` (`src/core/checklist.py`) -/

/-- Embedding of `ChecklistProcessor._checklist_applies` (checklist.py:81-91). -/
def _checklist_applies (checklist : Checklist) (entity_type : String) : Bool :=
  let checklist_entity_type := checklist.entity_type
  if checklist_entity_type = "" then
    true
  else
    entity_type = checklist_entity_type ||
      pyIn (pyLower entity_type) (pyLower checklist_entity_type) ||
      pyIn (pyLower checklist_entity_type) (pyLower entity_type)

/-- Embedding of `ChecklistProcessor._requirement_applies` (checklist.py:147-154):
`"always"` returns `True`, and the fall-through also returns `True`. -/
def _requirement_applies (applies_if : String) (_documents : List ParsedDocument) : Bool :=
  if applies_if = "always" then true else true

/-- Embedding of `ChecklistProcessor._get_requirement_patterns` (checklist.py:205-249).
`re.escape(req_name)` is the identity under the literal-pattern matcher
model. -/
def _get_requirement_patterns (req_name : String) : List String :=
  (if pyIn "articles" (pyLower req_name) then
    ["articles of association", "memorandum of association", "constitution"]
  else []) ++
  (if pyIn "register" (pyLower req_name) then
    ["register of members", "register of directors", "share register",
     "member register"]
  else []) ++
  (if pyIn "declaration" (pyLower req_name) then
    ["ubo declaration", "ultimate beneficial owner", "beneficial ownership"]
  else []) ++
  (if pyIn "application" (pyLower req_name) then
    ["incorporation application", "application form", "registration application"]
  else []) ++
  (if pyIn "reservation" (pyLower req_name) then
    ["name reservation", "reserved name", "company name"]
  else []) ++
  [req_name]

/-- The `for i, content in enumerate(doc_contents)` loop of
`_check_requirement_presence` building `found_in_content`. -/
def contentHits (req_lower : String) : Nat → List String → List String
  | _, [] => []
  | i, content :: rest =>
    if pyIn req_lower content then
      ("Document " ++ toString (i + 1)) :: contentHits req_lower (i + 1) rest
    else
      contentHits req_lower (i + 1) rest

/-- Embedding of `ChecklistProcessor._check_requirement_presence` (checklist.py:156-203),
parameterised by the `re.search` oracle used for the category patterns. -/
def _check_requirement_presence (search : String → String → Bool)
    (req_name : String) (doc_names doc_contents : List String)
    (combined_content : String) : Option FoundInfo :=
  let req_lower := pyLower req_name
  let found_in_names := doc_names.filter (fun doc_name =>
    pyIn req_lower doc_name ||
      (pySplitWs req_lower).any (fun word => pyIn word doc_name))
  let found_in_content := contentHits req_lower 0 doc_contents
  let content_patterns := _get_requirement_patterns req_name
  let pattern_matches := content_patterns.filter
    (fun pat => search pat combined_content)
  let confidence : ℚ :=
    (if found_in_names.isEmpty then 0 else 6/10) +
    (if found_in_content.isEmpty then 0 else 3/10) +
    (if pattern_matches.isEmpty then 0 else 1/10)
  let found_in :=
    found_in_names ++ found_in_content ++
      (if pattern_matches.isEmpty then []
       else ["Pattern matches: " ++ String.intercalate ", " pattern_matches])
  if 0 < confidence then
    some { found_in := found_in, confidence := min confidence 1 }
  else
    none

/-- The `for requirement in requirements` loop of `check_requirements`
(checklist.py:109-135), returning the built
`(found_requirements, missing_requirements)` pair. -/
def processRequirements (search : String → String → Bool)
    (documents : List ParsedDocument)
    (doc_names doc_contents : List String) (combined_content : String) :
    List Requirement → List FoundReq × List MissingReq
  | [] => ([], [])
  | requirement :: rest =>
    let req_name := requirement.name
    let req_mandatory := requirement.mandatory.getD true
    let req_applies_if := requirement.applies_if.getD "always"
    if ¬ _requirement_applies req_applies_if documents then
      processRequirements search documents doc_names doc_contents
        combined_content rest
    else
      let found := _check_requirement_presence search req_name doc_names
        doc_contents combined_content
      let later := processRequirements search documents doc_names doc_contents
        combined_content rest
      match found with
      | some info =>
        ({ name := req_name, mandatory := req_mandatory,
           found_in := info.found_in, confidence := info.confidence } ::
            later.1,
          later.2)
      | none =>
        (later.1,
          { name := req_name, mandatory := req_mandatory,
            sources := requirement.sources } :: later.2)

/-- Embedding of `ChecklistProcessor.check_requirements` (checklist.py:93-145). -/
def check_requirements (search : String → String → Bool)
    (documents : List ParsedDocument) (checklist : Checklist) : ReqResults :=
  let requirements := checklist.requirements
  let doc_names := documents.map (fun doc => pyLower doc.filename)
  let doc_contents := documents.map (fun doc => pyLower doc.full_text)
  let combined_content := String.intercalate " " doc_contents
  let built := processRequirements search documents doc_names doc_contents
    combined_content requirements
  let mandatory_requirements := requirements.filter
    (fun r => r.mandatory.getD true)
  let mandatory_found := (built.1.filter (fun r => r.mandatory)).length
  { total_requirements := requirements.length
    found_requirements := built.1
    missing_requirements := built.2
    compliance_score :=
      if ¬ mandatory_requirements.isEmpty then
        (mandatory_found : ℚ) / (mandatory_requirements.length : ℚ)
      else 0 }

/-- Embedding of `ChecklistProcessor._get_compliance_status` (checklist.py:366-377). -/
def _get_compliance_status (requirement_results : ReqResults) : String :=
  let compliance_score := requirement_results.compliance_score
  if 9/10 ≤ compliance_score then "Compliant"
  else if 7/10 ≤ compliance_score then "Mostly Compliant"
  else if 5/10 ≤ compliance_score then "Partially Compliant"
  else "Non-Compliant"

/-! ## `DocumentAnalyzer` (`src/core/analyzer.py`) -/

/-- The `self.process_patterns` table (analyzer.py:24-54), flattened to
an association list in declaration order. -/
def incorporation_patterns : List String :=
  ["incorporation", "articles of association", "memorandum of association",
   "register of members", "register of directors", "ubo declaration",
   "name reservation"]

/-- Patterns for the "Employment" process (analyzer.py:34-40). -/
def employment_patterns : List String :=
  ["employment contract", "employee handbook", "terms of employment",
   "er 2024", "employment regulations"]

/-- Patterns for the "Post Registration" process (analyzer.py:41-47). -/
def post_registration_patterns : List String :=
  ["articles amendment", "shareholder resolution", "board resolution",
   "change of directors", "change of registered office"]

/-- Patterns for the "Annual Filings" process (analyzer.py:48-53). -/
def annual_filings_patterns : List String :=
  ["annual accounts", "annual return", "annual filing",
   "financial statements"]

/-- The whole `process_patterns` dict, in insertion order. -/
def process_patterns : List (String × List String) :=
  [("Company Incorporation", incorporation_patterns),
   ("Employment", employment_patterns),
   ("Post Registration", post_registration_patterns),
   ("Annual Filings", annual_filings_patterns)]

/-- The case-folded concatenation of all document texts built at the top
of `detect_process` and `detect_entity_type`. -/
def combinedLowerText (documents : List ParsedDocument) : String :=
  pyLower (String.intercalate " " (documents.map (fun doc => doc.full_text)))

/-- The aggregate match count of one process's pattern list
(the inner loop of analyzer.py:143-148). -/
def processScore (count : String → String → Nat) (text : String)
    (pats : List String) : Nat :=
  (pats.map (fun pat => count pat text)).sum

/-- Python `max(items, key=lambda x: x[1])` over a non-empty association
list: keeps the earlier item on ties. -/
def pyMaxBySnd (x : String × Nat) (xs : List (String × Nat)) : String × Nat :=
  xs.foldl (fun best y => if y.2 > best.2 then y else best) x

/-- Embedding of `DocumentAnalyzer.detect_process` (analyzer.py:135-157),
parameterised by the `re.findall` counting oracle. -/
def detect_process (count : String → String → Nat)
    (documents : List ParsedDocument) : String :=
  let combined_text := combinedLowerText documents
  let process_scores := process_patterns.map
    (fun pp => (pp.1, processScore count combined_text pp.2))
  match process_scores with
  | [] => "General Review"
  | x :: xs =>
    let best_process := pyMaxBySnd x xs
    if best_process.2 > 0 then best_process.1 else "General Review"

/-- A red-flag rule's config dict, with the `.get` defaults from
analyzer.py baked in for the keys whose default is kind-independent. -/
structure RuleConfig where
  kind : String := ""
  applies_if : String := "always"
  trigger_if : List String := []
  applies_to_docs : List String := ["All"]
  severity : Option String := none
  message : Option String := none
  citations : List String := []
  patterns_any : List String := []
  require_phrase : String := ""
  checks : List String := []
  forbidden_phrases : List String := []
  indicators_any : List String := []
deriving DecidableEq

/-- A produced red flag (analyzer.py dict literals at 295-301 etc.). -/
structure Issue where
  rule : String
  document : String
  issue : String
  severity : String
  citations : List String
deriving DecidableEq

/-- The literal condition string `process == 'Company Incorporation'`
compared against `applies_if` (analyzer.py:219). -/
def ciCondition : String :=
  "process == " ++ String.mk [squote] ++ "Company Incorporation" ++
    String.mk [squote]

/-- Embedding of `DocumentAnalyzer._check_pattern_presence_rule` (analyzer.py:279-303). -/
def _check_pattern_presence_rule (search : String → String → Bool)
    (rule_name : String) (rule_config : RuleConfig)
    (doc_name doc_text : String) : Option Issue :=
  let patterns_any := rule_config.patterns_any
  let require_phrase := rule_config.require_phrase
  let forbidden_found := patterns_any.any (fun pat => search pat doc_text)
  if forbidden_found then
    if require_phrase ≠ "" ∧ ¬ search require_phrase doc_text then
      some { rule := rule_name, document := doc_name,
             issue := rule_config.message.getD "Pattern presence issue detected",
             severity := rule_config.severity.getD "Medium",
             citations := rule_config.citations }
    else none
  else none

/-- The regex behind the `has_signatory_name` probe (analyzer.py:314). -/
def sigNameRegex : String :=
  "(signed|signature|signed by|executed by).*\\b[A-Z][a-z]+ [A-Z][a-z]+\\b"

/-- The regex behind the `has_capacity` probe (analyzer.py:318). -/
def capacityRegex : String := "(director|officer|authorized|capacity)"

/-- The regex behind the `has_signature_or_e-sign` probe (analyzer.py:322). -/
def signatureRegex : String :=
  "(signature|signed|electronic signature|e-sign)"

/-- The regex behind the `has_date` probe (analyzer.py:326). -/
def dateRegex : String :=
  "\\b\\d\x7b1,2\x7d[/-]\\d\x7b1,2\x7d[/-]\\d\x7b4\x7d\\b|\\b\\d\x7b4\x7d[/-]\\d\x7b1,2\x7d[/-]\\d\x7b1,2\x7d\\b"

/-- Embedding of `DocumentAnalyzer._check_structural_rule` (analyzer.py:305-338). -/
def _check_structural_rule (search : String → String → Bool)
    (rule_name : String) (rule_config : RuleConfig)
    (doc_name doc_text : String) : Option Issue :=
  let checks := rule_config.checks
  let missing_checks :=
    (if checks.contains "has_signatory_name" ∧ ¬ search sigNameRegex doc_text
     then ["signatory name"] else []) ++
    (if checks.contains "has_capacity" ∧ ¬ search capacityRegex doc_text
     then ["capacity"] else []) ++
    (if checks.contains "has_signature_or_e-sign" ∧
        ¬ search signatureRegex doc_text
     then ["signature"] else []) ++
    (if checks.contains "has_date" ∧ ¬ search dateRegex doc_text
     then ["date"] else [])
  if ¬ missing_checks.isEmpty then
    some { rule := rule_name, document := doc_name,
           issue := "Missing structural elements: " ++
             String.intercalate ", " missing_checks,
           severity := rule_config.severity.getD "Medium",
           citations := rule_config.citations }
  else none

/-- The `for phrase in forbidden_phrases` loop of
`_check_semantic_rule` (analyzer.py:345-353). -/
def semanticLoop (search : String → String → Bool) (rule_name : String)
    (rule_config : RuleConfig) (doc_name doc_text : String) :
    List String → Option Issue
  | [] => none
  | phrase :: rest =>
    if search phrase doc_text then
      some { rule := rule_name, document := doc_name,
             issue := rule_config.message.getD
               ("Forbidden phrase found: " ++ phrase),
             severity := rule_config.severity.getD "High",
             citations := rule_config.citations }
    else semanticLoop search rule_name rule_config doc_name doc_text rest

/-- Embedding of `DocumentAnalyzer._check_semantic_rule` (analyzer.py:340-355). -/
def _check_semantic_rule (search : String → String → Bool)
    (rule_name : String) (rule_config : RuleConfig)
    (doc_name doc_text : String) : Option Issue :=
  semanticLoop search rule_name rule_config doc_name doc_text
    rule_config.forbidden_phrases

/-- The placeholder/blank-run regex of analyzer.py:364. -/
def placeholderRegex : String := "\\[\\[.*?\\]\\]|_\x7b3,\x7d"

/-- The `for indicator in indicators` loop of `_check_heuristic_rule`
(analyzer.py:362-381). -/
def heuristicLoop (search : String → String → Bool) (rule_name : String)
    (rule_config : RuleConfig) (doc_name doc_text : String) :
    List String → Option Issue
  | [] => none
  | indicator :: rest =>
    if pyIn "Template fields left blank" indicator then
      if search placeholderRegex doc_text then
        some { rule := rule_name, document := doc_name,
               issue := rule_config.message.getD "Template placeholders found",
               severity := rule_config.severity.getD "Low",
               citations := rule_config.citations }
      else heuristicLoop search rule_name rule_config doc_name doc_text rest
    else if pyIn "Lorem ipsum" indicator then
      if pyIn "lorem ipsum" (pyLower doc_text) then
        some { rule := rule_name, document := doc_name,
               issue := rule_config.message.getD "Lorem ipsum text found",
               severity := rule_config.severity.getD "Low",
               citations := rule_config.citations }
      else heuristicLoop search rule_name rule_config doc_name doc_text rest
    else heuristicLoop search rule_name rule_config doc_name doc_text rest

/-- Embedding of `DocumentAnalyzer._check_heuristic_rule` (analyzer.py:357-383). -/
def _check_heuristic_rule (search : String → String → Bool)
    (rule_name : String) (rule_config : RuleConfig)
    (doc_name doc_text : String) : Option Issue :=
  heuristicLoop search rule_name rule_config doc_name doc_text
    rule_config.indicators_any

/-- The entity-type gate of `_apply_redflag_rule` (analyzer.py:224-234):
some `trigger_if` condition containing `entity_type ==` names the
detected entity type (quotes and whitespace stripped). -/
def entityConditionMet (trigger_if : List String) (entity_type : String) :
    Bool :=
  trigger_if.any (fun condition =>
    pyIn "entity_type ==" condition &&
      entity_type = pyStripChars
        (pyTrim ((pySplitOn "==" condition).getD 1 "")) [squote, dquote])

/-- The per-document body of the `for doc in documents` loop of
`_apply_redflag_rule` (analyzer.py:240-275): document-scope gate plus
kind dispatch, at most one issue per document. -/
def applyRuleToDoc (search : String → String → Bool) (rule_name : String)
    (rule_config : RuleConfig) (doc : ParsedDocument) : Option Issue :=
  let doc_name := doc.filename
  let doc_text := doc.full_text
  let applies_to_docs := rule_config.applies_to_docs
  if ¬ applies_to_docs.contains "All" ∧ ¬ applies_to_docs.contains doc_name
  then none
  else if rule_config.kind = "pattern_presence" then
    _check_pattern_presence_rule search rule_name rule_config doc_name doc_text
  else if rule_config.kind = "structural_check" then
    _check_structural_rule search rule_name rule_config doc_name doc_text
  else if rule_config.kind = "semantic_check" then
    _check_semantic_rule search rule_name rule_config doc_name doc_text
  else if rule_config.kind = "heuristic" then
    _check_heuristic_rule search rule_name rule_config doc_name doc_text
  else none

/-- Embedding of `DocumentAnalyzer._apply_redflag_rule` (analyzer.py:210-277). -/
def _apply_redflag_rule (search : String → String → Bool)
    (rule_name : String) (rule_config : RuleConfig)
    (documents : List ParsedDocument) (process entity_type : String) :
    List Issue :=
  let applies_if := rule_config.applies_if
  if applies_if ≠ "always" ∧ applies_if = ciCondition ∧
      process ≠ "Company Incorporation" then []
  else if rule_config.trigger_if ≠ [] ∧
      ¬ entityConditionMet rule_config.trigger_if entity_type then []
  else documents.filterMap (applyRuleToDoc search rule_name rule_config)

/-- Embedding of `DocumentAnalyzer.check_redflags` (analyzer.py:191-208); the loaded
rule sets are an association list `scope ↦ named rules` in load order. -/
def check_redflags (search : String → String → Bool)
    (redflag_rules : List (String × List (String × RuleConfig)))
    (documents : List ParsedDocument) (process entity_type : String) :
    List Issue :=
  let applicable_rules :=
    (redflag_rules.filter (fun s =>
      s.1 = "General Corporate Docs" || pyIn (pyLower s.1) (pyLower process))).flatMap
      (fun s => s.2)
  applicable_rules.flatMap (fun r =>
    _apply_redflag_rule search r.1 r.2 documents process entity_type)

/-! ## `ReportBuilder` (`src/core/report.py`) -/

/-- Embedding of `ReportBuilder._find_document_by_name` (report.py:158-173): first
document whose lower-cased filename equals, contains, or is contained in
the lower-cased requested name. -/
def _find_document_by_name (documents : List ParsedDocument)
    (document_name : String) : Option ParsedDocument :=
  let document_name_lower := pyLower document_name
  documents.find? (fun doc =>
    let doc_filename := pyLower doc.filename
    doc_filename = document_name_lower ||
      pyIn document_name_lower doc_filename ||
      pyIn doc_filename document_name_lower)

/-! ## `DocumentRetriever` (`src/core/retrieval.py`)

External collaborators are explicit parameters:
* `embedOracle` — the OpenAI embedding call inside `embed_query`
  (retrieval.py:37-41), which can raise;
* `embedDocs` — the batch embedding call inside `rerank_documents`
  (retrieval.py:104-107), which can raise;
* `store` — the Chroma `collection.query` call (retrieval.py:58-62),
  which can raise;
* `cosine` — `_cosine_similarity` (numpy floating-point arithmetic,
  retrieval.py:129-139).
-/

/-- One raw candidate from the vector store (text, metadata, distance). -/
structure RawResult where
  text : String
  metadata : List (String × String)
  distance : ℚ
deriving DecidableEq

/-- A formatted retrieved document (retrieval.py:74-79); `rerank_score`
is absent until `rerank_documents` sets it. -/
structure RetrievedDoc where
  text : String
  metadata : List (String × String)
  similarity_score : ℚ
  distance : ℚ
  rerank_score : Option ℚ := none
deriving DecidableEq

/-- The `rag` section of `config/settings.yml` with the in-code
defaults (retrieval.py:25-27). -/
structure RagConfig where
  top_k : Nat := 8
  rerank_k : Nat := 6
  min_score : ℚ := 35/100
deriving DecidableEq

/-- Embedding of `DocumentRetriever.embed_query` (retrieval.py:34-44): an embedding
failure is caught and yields the empty vector. -/
def embed_query (embedOracle : String → Except String (List ℚ))
    (query : String) : List ℚ :=
  match embedOracle query with
  | Except.ok v => v
  | Except.error _ => []

/-- Embedding of `DocumentRetriever.retrieve_documents` (retrieval.py:46-85): an
empty query embedding or a store failure yields the empty list;
otherwise each raw result is formatted with
`similarity_score = 1 - distance`. -/
def retrieve_documents (embedOracle : String → Except String (List ℚ))
    (store : List ℚ → Nat → Except String (List RawResult))
    (cfg : RagConfig) (query : String) (top_k : Option Nat) :
    List RetrievedDoc :=
  let k := top_k.getD cfg.top_k
  let query_embedding := embed_query embedOracle query
  if query_embedding.isEmpty then []
  else
    match store query_embedding k with
    | Except.error _ => []
    | Except.ok results =>
      results.map (fun r =>
        { text := r.text, metadata := r.metadata,
          similarity_score := 1 - r.distance, distance := r.distance,
          rerank_score := none })

/-- Embedding of `DocumentRetriever.rerank_documents` (retrieval.py:87-127): on an
empty input the result is empty; if the query embedding is empty or the
batch document embedding raises (also when it returns too few vectors,
which would raise `IndexError` inside the same `try`), the fallback is
the first `rerank_k` documents in their original order; otherwise every
document gets a `rerank_score` and the list is sorted by it descending
(stably, as `sorted(..., reverse=True)`) and truncated to `rerank_k`. -/
def rerank_documents (cosine : List ℚ → List ℚ → ℚ)
    (embedOracle : String → Except String (List ℚ))
    (embedDocs : List String → Except String (List (List ℚ)))
    (cfg : RagConfig) (query : String) (documents : List RetrievedDoc)
    (rerank_k : Option Nat) : List RetrievedDoc :=
  let rk := rerank_k.getD cfg.rerank_k
  if documents.isEmpty then []
  else
    let query_embedding := embed_query embedOracle query
    if query_embedding.isEmpty then documents.take rk
    else
      match embedDocs (documents.map (fun doc => doc.text)) with
      | Except.error _ => documents.take rk
      | Except.ok doc_embeddings =>
        if doc_embeddings.length < documents.length then documents.take rk
        else
          let similarities := doc_embeddings.map
            (fun e => cosine query_embedding e)
          let updated := documents.zipWith
            (fun doc s => { doc with rerank_score := some s }) similarities
          (updated.mergeSort (fun a b =>
            decide ((b.rerank_score.getD 0) ≤ (a.rerank_score.getD 0)))).take rk

/-- Embedding of `DocumentRetriever.filter_by_score` (retrieval.py:141-147). -/
def filter_by_score (cfg : RagConfig) (documents : List RetrievedDoc)
    (min_score : Option ℚ) : List RetrievedDoc :=
  let m := min_score.getD cfg.min_score
  documents.filter (fun doc => m ≤ doc.similarity_score)

/-- Embedding of `DocumentRetriever.retrieve_and_rerank` (retrieval.py:149-168):
retrieve, short-circuit on no candidates, rerank, threshold-filter. -/
def retrieve_and_rerank (cosine : List ℚ → List ℚ → ℚ)
    (embedOracle : String → Except String (List ℚ))
    (embedDocs : List String → Except String (List (List ℚ)))
    (store : List ℚ → Nat → Except String (List RawResult))
    (cfg : RagConfig) (query : String) : List RetrievedDoc :=
  let documents := retrieve_documents embedOracle store cfg query none
  if documents.isEmpty then []
  else
    let reranked_docs := rerank_documents cosine embedOracle embedDocs cfg
      query documents none
    filter_by_score cfg reranked_docs none

/-! ## Spec-side helpers and concrete inputs used by witnesses -/

/-- The confidence produced by the three evidence channels of
`_check_requirement_presence` as a function of which channels triggered
(filename match, full-text match, category-pattern match): sum of the
triggered weights 0.6 / 0.3 / 0.1, capped at 1. -/
def channelConfidence (names content pats : Bool) : ℚ :=
  min ((if names then 6/10 else 0) + (if content then 3/10 else 0) +
    (if pats then 1/10 else 0)) 1

/-- A `pattern_presence` rule with a matching pattern and no
`require_phrase`. -/
def rcPatternOnly : RuleConfig :=
  { kind := "pattern_presence", patterns_any := ["foo"] }

/-- A trivial cosine-similarity collaborator. -/
def cosine0 : List ℚ → List ℚ → ℚ := fun _ _ => 0

/-- An embedding collaborator that always succeeds. -/
def oracleOk : String → Except String (List ℚ) := fun _ => Except.ok [1]

/-- A batch-embedding collaborator that always raises. -/
def embedDocsFail : List String → Except String (List (List ℚ)) :=
  fun _ => Except.error "embedding failure"

/-- A batch-embedding collaborator that always succeeds. -/
def embedDocsOk : List String → Except String (List (List ℚ)) :=
  fun texts => Except.ok (texts.map (fun _ => [1]))

/-- A vector store returning zero candidates. -/
def storeEmpty : List ℚ → Nat → Except String (List RawResult) :=
  fun _ _ => Except.ok []

/-- One concrete retrieved document. -/
def rdoc0 : RetrievedDoc :=
  { text := "t", metadata := [], similarity_score := 1, distance := 0 }

/-- The found-info value produced by `_check_requirement_presence` on
the concrete input of the confidence witness. -/
def fiX : FoundInfo :=
  { found_in := ["x.docx"], confidence := min ((6:ℚ)/10 + 0 + 0) 1 }

/-- A concrete document for the red-flag witness. -/
def docA : ParsedDocument := { filename := "a.docx", full_text := "restricted text" }

/-- A `semantic_check` rule that fires on `docA`. -/
def rcSem : RuleConfig :=
  { kind := "semantic_check", forbidden_phrases := ["restricted"] }

/-- A loaded rule-set table holding only `rcSem` under the wildcard
scope. -/
def rulesSem : List (String × List (String × RuleConfig)) :=
  [("General Corporate Docs", [("rule1", rcSem)])]

/-- The issue `rcSem` produces on `docA`. -/
def issueA : Issue :=
  { rule := "rule1", document := "a.docx",
    issue := "Forbidden phrase found: restricted", severity := "High",
    citations := [] }

/-! ## Lemmas and claim theorems -/

/-- Lemma: `pyIn` decides substring occurrence. -/
lemma pyIn_eq_true_iff (needle haystack : String) :
    pyIn needle haystack = true ↔
      ∃ pre post, haystack.toList = pre ++ needle.toList ++ post := by
  unfold pyIn
  rw [List.any_eq_true]
  constructor
  · rintro ⟨t, ht, hp⟩
    rw [List.mem_tails] at ht
    rw [List.isPrefixOf_iff_prefix] at hp
    obtain ⟨r, hr⟩ := hp
    obtain ⟨s, hs⟩ := ht
    exact ⟨s, r, by rw [← hs, ← hr]; simp⟩
  · rintro ⟨pre, post, hh⟩
    refine ⟨needle.toList ++ post, ?_, ?_⟩
    · rw [List.mem_tails]
      exact ⟨pre, by rw [hh]; simp⟩
    · rw [List.isPrefixOf_iff_prefix]
      exact ⟨post, rfl⟩

/-- C5: `_checklist_applies` holds exactly when the checklist declares no
entity-type restriction, or the two strings are equal, or either string
occurs case-insensitively inside the other; in particular it is false
when the restriction is non-empty and neither lower-cased string is a
substring of the other. -/
theorem checklist_applies_iff (checklist : Checklist) (entity_type : String) :
    _checklist_applies checklist entity_type = true ↔
      (checklist.entity_type = "" ∨
       entity_type = checklist.entity_type ∨
       (∃ pre post, (pyLower checklist.entity_type).toList =
          pre ++ (pyLower entity_type).toList ++ post) ∨
       (∃ pre post, (pyLower entity_type).toList =
          pre ++ (pyLower checklist.entity_type).toList ++ post)) := by
  unfold _checklist_applies
  by_cases hce : checklist.entity_type = ""
  · simp [hce]
  · simp only [hce, if_false, Bool.or_eq_true, decide_eq_true_eq,
      pyIn_eq_true_iff]
    rw [or_assoc]
    simp [hce]

/-- C7: `_get_compliance_status` is the banded function of
`compliance_score` (≥0.9 Compliant, ≥0.7 Mostly Compliant, ≥0.5
Partially Compliant, else Non-Compliant), and in particular maps 0.95 to
Compliant, 0.75 to Mostly Compliant, 0.60 to Partially Compliant and
0.30 to Non-Compliant. -/
theorem compliance_status_banding (r : ReqResults) :
    ((_get_compliance_status r = "Compliant" ↔
        9/10 ≤ r.compliance_score) ∧
     (_get_compliance_status r = "Mostly Compliant" ↔
        7/10 ≤ r.compliance_score ∧ r.compliance_score < 9/10) ∧
     (_get_compliance_status r = "Partially Compliant" ↔
        5/10 ≤ r.compliance_score ∧ r.compliance_score < 7/10) ∧
     (_get_compliance_status r = "Non-Compliant" ↔
        r.compliance_score < 5/10)) ∧
    _get_compliance_status ⟨0, [], [], 95/100⟩ = "Compliant" ∧
    _get_compliance_status ⟨0, [], [], 75/100⟩ = "Mostly Compliant" ∧
    _get_compliance_status ⟨0, [], [], 60/100⟩ = "Partially Compliant" ∧
    _get_compliance_status ⟨0, [], [], 30/100⟩ = "Non-Compliant" := by
  refine ⟨?_, by norm_num [_get_compliance_status], ?_, ?_, ?_⟩
  · simp only [_get_compliance_status]
    rcases le_or_lt (9/10 : ℚ) r.compliance_score with h9 | h9
    · rw [if_pos h9]
      refine ⟨?_, ?_, ?_, ?_⟩ <;> simp <;>
        first | linarith | (intro; linarith) | (constructor <;> linarith)
    · rw [if_neg (not_le.mpr h9)]
      rcases le_or_lt (7/10 : ℚ) r.compliance_score with h7 | h7
      · rw [if_pos h7]
        refine ⟨?_, ?_, ?_, ?_⟩ <;> simp <;>
          first | linarith | (intro; linarith) | (constructor <;> linarith)
      · rw [if_neg (not_le.mpr h7)]
        rcases le_or_lt (5/10 : ℚ) r.compliance_score with h5 | h5
        · rw [if_pos h5]
          refine ⟨?_, ?_, ?_, ?_⟩ <;> simp <;>
            first | linarith | (intro; linarith) | (constructor <;> linarith)
        · rw [if_neg (not_le.mpr h5)]
          refine ⟨?_, ?_, ?_, ?_⟩ <;> simp <;>
            first | linarith | (intro; linarith) | (constructor <;> linarith)
  · norm_num [_get_compliance_status]
  · norm_num [_get_compliance_status]
  · norm_num [_get_compliance_status]

/-- Lemma: `_requirement_applies` accepts every condition string. -/
lemma requirement_applies_true (applies_if : String)
    (documents : List ParsedDocument) :
    _requirement_applies applies_if documents = true := by
  unfold _requirement_applies
  split <;> rfl

/-- The requirement loop never drops a requirement: the found and
missing lists together have one entry per requirement. -/
lemma processRequirements_length (search : String → String → Bool)
    (documents : List ParsedDocument) (doc_names doc_contents : List String)
    (combined_content : String) (reqs : List Requirement) :
    (processRequirements search documents doc_names doc_contents
        combined_content reqs).1.length +
      (processRequirements search documents doc_names doc_contents
        combined_content reqs).2.length = reqs.length := by
  induction reqs with
  | nil => simp [processRequirements]
  | cons r rest ih =>
    simp only [processRequirements, requirement_applies_true, not_true_eq_false,
      if_false]
    cases _check_requirement_presence search r.name doc_names doc_contents
        combined_content <;>
      simp only [List.length_cons] <;> omega

/-- The found-and-mandatory count of the requirement loop equals a
direct count over the requirement list. -/
lemma processRequirements_mandatory_found (search : String → String → Bool)
    (documents : List ParsedDocument) (doc_names doc_contents : List String)
    (combined_content : String) (reqs : List Requirement) :
    ((processRequirements search documents doc_names doc_contents
        combined_content reqs).1.filter (fun f => f.mandatory)).length =
      reqs.countP (fun r => r.mandatory.getD true &&
        (_check_requirement_presence search r.name doc_names doc_contents
          combined_content).isSome) := by
  induction reqs with
  | nil => simp [processRequirements]
  | cons r rest ih =>
    simp only [processRequirements, requirement_applies_true, not_true_eq_false,
      if_false, List.countP_cons]
    cases hp : _check_requirement_presence search r.name doc_names doc_contents
        combined_content with
    | none => simp [ih]
    | some info =>
      cases hm : r.mandatory.getD true <;>
        simp [List.filter_cons, hm, ih]

/-- C10: `check_requirements` places each applicable requirement in
exactly one of the found or missing lists — their lengths sum to
`total_requirements` — and `_requirement_applies` returns true for every
condition string, so no requirement is ever skipped. -/
theorem check_requirements_partition (search : String → String → Bool)
    (documents : List ParsedDocument) (checklist : Checklist) :
    ((check_requirements search documents checklist).found_requirements.length +
      (check_requirements search documents checklist).missing_requirements.length =
      (check_requirements search documents checklist).total_requirements) ∧
    (∀ applies_if docs, _requirement_applies applies_if docs = true) := by
  refine ⟨?_, requirement_applies_true⟩
  simp only [check_requirements]
  exact processRequirements_length _ _ _ _ _ _

/-- C1: the compliance score of `check_requirements` is the number of
found mandatory requirements divided by the number of mandatory
requirements of the checklist (a missing `mandatory` flag counts as
mandatory), and it is 0 when the checklist has no mandatory
requirements. -/
theorem compliance_score_spec (search : String → String → Bool)
    (documents : List ParsedDocument) (checklist : Checklist) :
    (check_requirements search documents checklist).compliance_score =
      (if (checklist.requirements.countP (fun r => r.mandatory.getD true)) = 0
       then 0
       else
        ((checklist.requirements.countP (fun r => r.mandatory.getD true &&
          (_check_requirement_presence search r.name
            (documents.map (fun doc => pyLower doc.filename))
            (documents.map (fun doc => pyLower doc.full_text))
            (String.intercalate " "
              (documents.map (fun doc => pyLower doc.full_text)))).isSome)) : ℚ) /
        ((checklist.requirements.countP (fun r => r.mandatory.getD true)) : ℚ)) := by
  simp only [check_requirements]
  rw [processRequirements_mandatory_found]
  rcases h : checklist.requirements.filter (fun r => r.mandatory.getD true) with _ | ⟨a, rest⟩
  · have hc : checklist.requirements.countP (fun r => r.mandatory.getD true) = 0 := by
      rw [List.countP_eq_length_filter, h]
      rfl
    simp [h, hc]
  · have hc : checklist.requirements.countP (fun r => r.mandatory.getD true) =
        (a :: rest).length := by
      rw [List.countP_eq_length_filter, h]
    simp only [hc]
    simp [h]

/-- C2 counterexample: a `pattern_presence` rule whose `require_phrase`
is unset does not fire even though a pattern in `patterns_any` matches
the document text — the claim predicts an issue here. -/
theorem pattern_presence_unset_phrase_cex :
    rcPatternOnly.patterns_any.any (fun pat => searchLit pat "foo bar") = true ∧
    rcPatternOnly.require_phrase = "" ∧
    _check_pattern_presence_rule searchLit "rule" rcPatternOnly "doc.docx"
      "foo bar" = none := by
  refine ⟨by decide, rfl, by decide⟩

/-- C2 amended: a `pattern_presence` rule produces an issue exactly when
some pattern in `patterns_any` matches the document text AND
`require_phrase` is set (non-empty) AND that phrase is absent; with
`require_phrase` unset the rule never fires. -/
theorem pattern_presence_fires_iff (search : String → String → Bool)
    (rule_name : String) (rule_config : RuleConfig)
    (doc_name doc_text : String) :
    (_check_pattern_presence_rule search rule_name rule_config doc_name
        doc_text).isSome = true ↔
      (rule_config.patterns_any.any (fun pat => search pat doc_text) = true ∧
       rule_config.require_phrase ≠ "" ∧
       search rule_config.require_phrase doc_text = false) := by
  simp only [_check_pattern_presence_rule]
  split_ifs with h1 h2 <;> simp_all

/-- C4 counterexample: when the batch-embedding call of the reranker
raises, `rerank_documents` does not reduce its output to an empty list —
on a non-empty input it returns a non-empty fallback. -/
theorem rerank_failure_not_empty_cex :
    rerank_documents cosine0 oracleOk embedDocsFail {} "q" [rdoc0] none =
      [rdoc0] ∧
    ([rdoc0] : List RetrievedDoc) ≠ [] := by
  refine ⟨by decide, by decide⟩

/-- C4 amended: when the reranking step fails (the batch embedding call
raises), `rerank_documents` catches the error and returns the first
`rerank_k` input documents in their original order instead of
propagating the error. -/
theorem rerank_failure_truncates (cosine : List ℚ → List ℚ → ℚ)
    (embedOracle : String → Except String (List ℚ)) (e : String)
    (cfg : RagConfig) (query : String) (documents : List RetrievedDoc)
    (rerank_k : Option Nat) :
    rerank_documents cosine embedOracle (fun _ => Except.error e) cfg query
        documents rerank_k =
      documents.take (rerank_k.getD cfg.rerank_k) := by
  simp only [rerank_documents]
  by_cases h1 : documents.isEmpty = true
  · rw [List.isEmpty_iff] at h1
    simp [h1]
  · rw [if_neg h1]
    by_cases h2 : (embed_query embedOracle query).isEmpty = true
    · rw [if_pos h2]
    · rw [if_neg h2]

/-- C8: when the embedding step fails (empty query embedding) or the
vector store returns zero candidates or raises, `retrieve_and_rerank`
returns the empty list (and, being a total function into `List`, it
propagates no exception). -/
theorem retrieve_and_rerank_degrades (cosine : List ℚ → List ℚ → ℚ)
    (embedOracle : String → Except String (List ℚ))
    (embedDocs : List String → Except String (List (List ℚ)))
    (store : List ℚ → Nat → Except String (List RawResult))
    (cfg : RagConfig) (query : String)
    (h : embed_query embedOracle query = [] ∨
         store (embed_query embedOracle query) cfg.top_k = Except.ok [] ∨
         ∃ e, store (embed_query embedOracle query) cfg.top_k =
           Except.error e) :
    retrieve_and_rerank cosine embedOracle embedDocs store cfg query = [] := by
  unfold retrieve_and_rerank retrieve_documents
  rcases h with h | h | ⟨e, h⟩
  · simp [h]
  · rcases he : embed_query embedOracle query with _ | ⟨v, vs⟩
    · simp
    · rw [he] at h
      simp only [Option.getD_none, List.isEmpty_cons, if_false, h]
      simp
  · rcases he : embed_query embedOracle query with _ | ⟨v, vs⟩
    · simp
    · rw [he] at h
      simp only [Option.getD_none, List.isEmpty_cons, if_false, h]
      simp

/-- Witness for C8 at a concrete store returning zero candidates. -/
theorem retrieve_and_rerank_degrades_witness :
    (embed_query oracleOk "q" = [] ∨
     storeEmpty (embed_query oracleOk "q") ({} : RagConfig).top_k =
       Except.ok [] ∨
     ∃ e, storeEmpty (embed_query oracleOk "q") ({} : RagConfig).top_k =
       Except.error e) ∧
    retrieve_and_rerank cosine0 oracleOk embedDocsOk storeEmpty {} "q" = [] :=
  ⟨Or.inr (Or.inl rfl),
    retrieve_and_rerank_degrades cosine0 oracleOk embedDocsOk storeEmpty {} "q"
      (Or.inr (Or.inl rfl))⟩

/-- A filtered list is empty exactly when no element satisfies the
predicate. -/
lemma filter_isEmpty_eq {α : Type} (p : α → Bool) (l : List α) :
    (l.filter p).isEmpty = !l.any p := by
  induction l with
  | nil => rfl
  | cons a l ih =>
    by_cases hp : p a <;> simp [List.filter_cons, hp, ih]

/-- The content-hit list is empty exactly when no document content
contains the requirement name. -/
lemma contentHits_isEmpty (req_lower : String) (i : Nat) (l : List String) :
    (contentHits req_lower i l).isEmpty = !l.any (fun c => pyIn req_lower c) := by
  induction l generalizing i with
  | nil => rfl
  | cons c rest ih =>
    by_cases hp : pyIn req_lower c <;> simp [contentHits, hp, ih]

/-- C6: `_check_requirement_presence` reports a requirement found
exactly when one of its three evidence channels triggers (name token in
a filename, full name in a document text, category pattern in the
combined text); the reported confidence is the sum of the triggered
channel weights 0.6/0.3/0.1 capped at 1, hence lies in (0, 1], and is
monotonically non-decreasing in the set of triggered channels. -/
theorem requirement_confidence_spec (search : String → String → Bool)
    (req_name : String) (doc_names doc_contents : List String)
    (combined_content : String) :
    ((_check_requirement_presence search req_name doc_names doc_contents
        combined_content).isSome =
      (doc_names.any (fun doc_name => pyIn (pyLower req_name) doc_name ||
          (pySplitWs (pyLower req_name)).any (fun word => pyIn word doc_name)) ||
       doc_contents.any (fun content => pyIn (pyLower req_name) content) ||
       (_get_requirement_patterns req_name).any
         (fun pat => search pat combined_content))) ∧
    (∀ info, _check_requirement_presence search req_name doc_names doc_contents
        combined_content = some info →
      info.confidence =
        channelConfidence
          (doc_names.any (fun doc_name => pyIn (pyLower req_name) doc_name ||
            (pySplitWs (pyLower req_name)).any (fun word => pyIn word doc_name)))
          (doc_contents.any (fun content => pyIn (pyLower req_name) content))
          ((_get_requirement_patterns req_name).any
            (fun pat => search pat combined_content)) ∧
      0 < info.confidence ∧ info.confidence ≤ 1) ∧
    (∀ a b c a' b' c' : Bool, (a = true → a' = true) → (b = true → b' = true) →
      (c = true → c' = true) →
      channelConfidence a b c ≤ channelConfidence a' b' c') := by
  have hmono : ∀ a b c a' b' c' : Bool, (a = true → a' = true) →
      (b = true → b' = true) → (c = true → c' = true) →
      channelConfidence a b c ≤ channelConfidence a' b' c' := by
    intro a b c a' b' c' ha hb hc
    unfold channelConfidence
    refine min_le_min (add_le_add (add_le_add ?_ ?_) ?_) le_rfl
    · cases a
      · simp only [Bool.false_eq_true, if_false]
        split <;> norm_num
      · simp [ha rfl]
    · cases b
      · simp only [Bool.false_eq_true, if_false]
        split <;> norm_num
      · simp [hb rfl]
    · cases c
      · simp only [Bool.false_eq_true, if_false]
        split <;> norm_num
      · simp [hc rfl]
  refine ⟨?_, ?_, hmono⟩
  · simp only [_check_requirement_presence, filter_isEmpty_eq,
      contentHits_isEmpty]
    cases hA : doc_names.any (fun doc_name => pyIn (pyLower req_name) doc_name ||
        (pySplitWs (pyLower req_name)).any (fun word => pyIn word doc_name)) <;>
      cases hB : doc_contents.any (fun content =>
        pyIn (pyLower req_name) content) <;>
      cases hC : (_get_requirement_patterns req_name).any
        (fun pat => search pat combined_content) <;>
      norm_num
  · intro info hinfo
    rw [_check_requirement_presence] at hinfo
    simp only [filter_isEmpty_eq, contentHits_isEmpty] at hinfo
    revert hinfo
    cases hA : doc_names.any (fun doc_name => pyIn (pyLower req_name) doc_name ||
        (pySplitWs (pyLower req_name)).any (fun word => pyIn word doc_name)) <;>
      cases hB : doc_contents.any (fun content =>
        pyIn (pyLower req_name) content) <;>
      cases hC : (_get_requirement_patterns req_name).any
        (fun pat => search pat combined_content) <;>
      norm_num <;>
      (intro hinfo; cases hinfo) <;>
      refine ⟨by norm_num [channelConfidence], by norm_num, by norm_num⟩

/-- Witness for C6 at a concrete requirement found by filename. -/
theorem requirement_confidence_witness :
    (0 < fiX.confidence ∧ fiX.confidence ≤ 1) ∧
    channelConfidence false false false ≤ channelConfidence true false false := by
  have heq : _check_requirement_presence searchLit "x" ["x.docx"] [] "" =
      some fiX := by
    have h1 : (["x.docx"] : List String).filter (fun doc_name =>
        pyIn (pyLower "x") doc_name ||
          (pySplitWs (pyLower "x")).any (fun word => pyIn word doc_name)) =
        ["x.docx"] := by decide
    have h3 : (_get_requirement_patterns "x").filter
        (fun pat => searchLit pat "") = [] := by decide
    simp only [_check_requirement_presence, h1, h3, contentHits]
    norm_num [fiX]
  have h := requirement_confidence_spec searchLit "x" ["x.docx"] [] ""
  have h2 := h.2.1 fiX heq
  exact ⟨⟨h2.2.1, h2.2.2⟩, h.2.2 false false false true false false
    (fun hx => rfl) (fun hx => hx) (fun hx => hx)⟩

/-- C3: `detect_process` returns the process whose pattern list has the
highest aggregate match count over the case-folded concatenated document
text, ties broken by first-declared order in the pattern table
(Company Incorporation, Employment, Post Registration, Annual Filings),
and returns "General Review" when every process scores 0. -/
theorem detect_process_spec (count : String → String → Nat)
    (documents : List ParsedDocument) :
    detect_process count documents =
      (if processScore count (combinedLowerText documents)
            incorporation_patterns = 0 ∧
          processScore count (combinedLowerText documents)
            employment_patterns = 0 ∧
          processScore count (combinedLowerText documents)
            post_registration_patterns = 0 ∧
          processScore count (combinedLowerText documents)
            annual_filings_patterns = 0
       then "General Review"
       else if processScore count (combinedLowerText documents)
              employment_patterns ≤
            processScore count (combinedLowerText documents)
              incorporation_patterns ∧
          processScore count (combinedLowerText documents)
              post_registration_patterns ≤
            processScore count (combinedLowerText documents)
              incorporation_patterns ∧
          processScore count (combinedLowerText documents)
              annual_filings_patterns ≤
            processScore count (combinedLowerText documents)
              incorporation_patterns
       then "Company Incorporation"
       else if processScore count (combinedLowerText documents)
              incorporation_patterns <
            processScore count (combinedLowerText documents)
              employment_patterns ∧
          processScore count (combinedLowerText documents)
              post_registration_patterns ≤
            processScore count (combinedLowerText documents)
              employment_patterns ∧
          processScore count (combinedLowerText documents)
              annual_filings_patterns ≤
            processScore count (combinedLowerText documents)
              employment_patterns
       then "Employment"
       else if processScore count (combinedLowerText documents)
              incorporation_patterns <
            processScore count (combinedLowerText documents)
              post_registration_patterns ∧
          processScore count (combinedLowerText documents)
              employment_patterns <
            processScore count (combinedLowerText documents)
              post_registration_patterns ∧
          processScore count (combinedLowerText documents)
              annual_filings_patterns ≤
            processScore count (combinedLowerText documents)
              post_registration_patterns
       then "Post Registration"
       else "Annual Filings") := by
  simp only [detect_process, process_patterns, List.map_cons, List.map_nil,
    pyMaxBySnd, List.foldl_cons, List.foldl_nil, gt_iff_lt]
  split_ifs <;> simp_all <;> omega

/-- A fired `pattern_presence` rule reports the document it was applied
to. -/
lemma pattern_presence_document (search : String → String → Bool)
    (rule_name : String) (rule_config : RuleConfig) (doc_name doc_text : String)
    (issue : Issue)
    (h : _check_pattern_presence_rule search rule_name rule_config doc_name
      doc_text = some issue) : issue.document = doc_name := by
  simp only [_check_pattern_presence_rule] at h
  split_ifs at h <;> cases h <;> rfl

/-- A fired `structural_check` rule reports the document it was applied
to. -/
lemma structural_document (search : String → String → Bool)
    (rule_name : String) (rule_config : RuleConfig) (doc_name doc_text : String)
    (issue : Issue)
    (h : _check_structural_rule search rule_name rule_config doc_name
      doc_text = some issue) : issue.document = doc_name := by
  simp only [_check_structural_rule] at h
  split_ifs at h <;> cases h <;> rfl

/-- The semantic-rule loop reports the document it was applied to. -/
lemma semanticLoop_document (search : String → String → Bool)
    (rule_name : String) (rule_config : RuleConfig) (doc_name doc_text : String)
    (issue : Issue) (phrases : List String)
    (h : semanticLoop search rule_name rule_config doc_name doc_text
      phrases = some issue) : issue.document = doc_name := by
  induction phrases with
  | nil => cases h
  | cons phrase rest ih =>
    simp only [semanticLoop] at h
    split_ifs at h
    · cases h; rfl
    · exact ih h

/-- A fired `semantic_check` rule reports the document it was applied
to. -/
lemma semantic_document (search : String → String → Bool)
    (rule_name : String) (rule_config : RuleConfig) (doc_name doc_text : String)
    (issue : Issue)
    (h : _check_semantic_rule search rule_name rule_config doc_name
      doc_text = some issue) : issue.document = doc_name :=
  semanticLoop_document search rule_name rule_config doc_name doc_text issue
    rule_config.forbidden_phrases h

/-- The heuristic-rule loop reports the document it was applied to. -/
lemma heuristicLoop_document (search : String → String → Bool)
    (rule_name : String) (rule_config : RuleConfig) (doc_name doc_text : String)
    (issue : Issue) (indicators : List String)
    (h : heuristicLoop search rule_name rule_config doc_name doc_text
      indicators = some issue) : issue.document = doc_name := by
  induction indicators with
  | nil => cases h
  | cons indicator rest ih =>
    simp only [heuristicLoop] at h
    split_ifs at h <;> first | (cases h; rfl) | exact ih h

/-- A fired `heuristic` rule reports the document it was applied to. -/
lemma heuristic_document (search : String → String → Bool)
    (rule_name : String) (rule_config : RuleConfig) (doc_name doc_text : String)
    (issue : Issue)
    (h : _check_heuristic_rule search rule_name rule_config doc_name
      doc_text = some issue) : issue.document = doc_name :=
  heuristicLoop_document search rule_name rule_config doc_name doc_text issue
    rule_config.indicators_any h

/-- Whatever the rule kind, an issue produced on a document carries that
document's filename. -/
lemma applyRuleToDoc_document (search : String → String → Bool)
    (rule_name : String) (rule_config : RuleConfig) (doc : ParsedDocument)
    (issue : Issue)
    (h : applyRuleToDoc search rule_name rule_config doc = some issue) :
    issue.document = doc.filename := by
  simp only [applyRuleToDoc] at h
  split_ifs at h <;>
    first
      | exact pattern_presence_document _ _ _ _ _ _ h
      | exact structural_document _ _ _ _ _ _ h
      | exact semantic_document _ _ _ _ _ _ h
      | exact heuristic_document _ _ _ _ _ _ h
      | cases h

/-- Every issue of `_apply_redflag_rule` names one of the scanned
documents. -/
lemma apply_redflag_rule_document (search : String → String → Bool)
    (rule_name : String) (rule_config : RuleConfig)
    (documents : List ParsedDocument) (process entity_type : String)
    (issue : Issue)
    (h : issue ∈ _apply_redflag_rule search rule_name rule_config documents
      process entity_type) :
    ∃ doc ∈ documents, issue.document = doc.filename := by
  simp only [_apply_redflag_rule] at h
  split_ifs at h
  · cases h
  · cases h
  · rw [List.mem_filterMap] at h
    obtain ⟨doc, hdoc, happ⟩ := h
    exact ⟨doc, hdoc, applyRuleToDoc_document _ _ _ _ _ happ⟩

/-- C9: every issue produced by `check_redflags` has a `document` field
that is the filename of one of the analyzed documents, and hence
resolves through `_find_document_by_name` (exact or case-insensitive
substring match). -/
theorem check_redflags_document_resolves (search : String → String → Bool)
    (redflag_rules : List (String × List (String × RuleConfig)))
    (documents : List ParsedDocument) (process entity_type : String)
    (issue : Issue)
    (h : issue ∈ check_redflags search redflag_rules documents process
      entity_type) :
    (∃ doc ∈ documents, issue.document = doc.filename) ∧
    (_find_document_by_name documents issue.document).isSome = true := by
  simp only [check_redflags, List.mem_flatMap] at h
  obtain ⟨r, _, hr⟩ := h
  have hmem := apply_redflag_rule_document _ _ _ _ _ _ _ hr
  refine ⟨hmem, ?_⟩
  obtain ⟨doc, hdoc, hname⟩ := hmem
  simp only [_find_document_by_name]
  rw [List.find?_isSome]
  refine ⟨doc, hdoc, ?_⟩
  rw [hname]
  simp

/-- Witness for C9 at a concrete semantic rule firing on one document. -/
theorem check_redflags_document_resolves_witness :
    (∃ doc ∈ [docA], issueA.document = doc.filename) ∧
    (_find_document_by_name [docA] issueA.document).isSome = true :=
  check_redflags_document_resolves searchLit rulesSem [docA] "General Review"
    "X" issueA (by decide)
